import Mathlib

/-!
Verification of the route discovery, naming/versioning and orchestration glue
of the Metashape M3M automation scripts, as a shallow embedding in Lean.

Modelling conventions, used throughout:
* the file system visible to a scan is a value: a directory listing is a
  `List DirEntry` and folder/path existence is a function `String → DirState`;
* `glob.glob` with the star-prefix patterns used by the scripts is a suffix
  filter over the listing in listing order, case sensitive;
* `os.path.join` is concatenation with a single "/" separator;
* Python dictionaries are association lists with insertion order and
  update-in-place semantics, as in CPython;
* `sorted` with a key is a stable sort by the key; stable sorts with respect
  to a total preorder are unique as functions, so `List.insertionSort`
  (which is stable) is extensionally the CPython sort;
* string comparison is lexicographic on code points, as in Python;
* calls into the external Metashape engine are oracles passed as arguments
  (for example, whether a given save call succeeds, or the statistics of the
  chunk produced by a merge); the scripts only branch on their results.
-/

/-- A directory entry as seen by os.listdir of the DCIM folder: its name,
whether os.path.isdir holds for it, and the file names inside it. -/
structure DirEntry where
  name : String
  is_dir : Bool
  files : List String
deriving Repr, DecidableEq

/-- Existence/content state of one path, as probed by os.path.exists and
os.listdir: the path is absent, an existing empty folder, or an existing
folder with at least one entry. -/
inductive DirState where
  | absent : DirState
  | empty : DirState
  | nonempty : DirState
deriving Repr, DecidableEq

/-- Model of os.path.join with a single separator. -/
def pathJoin (a b : String) : String := a ++ "/" ++ b

/-- Model of glob.glob for the patterns the scripts use, which are all a star
followed by a literal suffix: keep, in listing order, the paths whose name
ends with the suffix (case sensitive). -/
def globSuffix (suffix : String) (paths : List String) : List String :=
  paths.filter (fun p => suffix.data.isSuffixOf p.data)

/-- ASCII model of the \d character class of the route regexes. -/
def isDigitChar (c : Char) : Bool := 48 ≤ c.toNat && c.toNat ≤ 57

/-- ASCII model of the \w character class: letter, digit or underscore. -/
def isWordChar (c : Char) : Bool :=
  isDigitChar c || (65 ≤ c.toNat && c.toNat ≤ 90) || (97 ≤ c.toNat && c.toNat ≤ 122)
    || c.toNat = 95

/-- ASCII upper-casing of one character, as str.upper does on ASCII data. -/
def asciiUpper (c : Char) : Char :=
  if 97 ≤ c.toNat && c.toNat ≤ 122 then Char.ofNat (c.toNat - 32) else c

/-- ASCII lower-casing of one character, as str.lower does on ASCII data. -/
def asciiLower (c : Char) : Char :=
  if 65 ≤ c.toNat && c.toNat ≤ 90 then Char.ofNat (c.toNat + 32) else c

/-- ASCII model of str.upper. -/
def upperStr (s : String) : String := String.mk (s.data.map asciiUpper)

/-- ASCII model of str.lower. -/
def lowerStr (s : String) : String := String.mk (s.data.map asciiLower)

/-- Boolean substring test on character lists, the in operator of Python. -/
def listIsInfixOf : List Char → List Char → Bool
  | n, [] => n.isEmpty
  | n, c :: cs => n.isPrefixOf (c :: cs) || listIsInfixOf n cs

/-- Split a character list into its maximal leading digit run and the rest,
exactly how a greedy \d-plus group consumes input. -/
def splitDigits : List Char → List Char × List Char
  | [] => ([], [])
  | c :: cs =>
    if isDigitChar c then
      let p := splitDigits cs
      (c :: p.1, p.2)
    else ([], c :: cs)

/-- Route grammar matcher shared by every scanner variant, embedding
re.match of the pattern DJI underscore, 12 to 14 digits, underscore, three
digits captured, underscore, anything (the raw pattern appears at
rgb_single_automation_generic.py line 171 and its copies).  The greedy
12-to-14-digit group is deterministic because a digit can never match the
following literal underscore, so the match succeeds exactly when the maximal
digit run after the prefix has length 12 to 14 and is followed by an
underscore, three digits and another underscore.  Returns the captured
three-digit route number. -/
def routeNumberOfFolder (folder : String) : Option String :=
  match folder.data with
  | 'D' :: 'J' :: 'I' :: '_' :: rest =>
    let p := splitDigits rest
    if 12 ≤ p.1.length && p.1.length ≤ 14 then
      match p.2 with
      | '_' :: a :: b :: c :: '_' :: _ =>
        if isDigitChar a && isDigitChar b && isDigitChar c then
          some (String.mk [a, b, c])
        else none
      | _ => none
    else none
  | _ => none

/-- Code-point lexicographic comparison of character lists, the order Python
uses when comparing strings. -/
def lexLe : List Char → List Char → Bool
  | [], _ => true
  | _ :: _, [] => false
  | a :: as, b :: bs =>
    if a.toNat < b.toNat then true
    else if b.toNat < a.toNat then false
    else lexLe as bs

/-- Python string comparison, used by sorted with a string key. -/
def strLe (s t : String) : Bool := lexLe s.data t.data

theorem lexLe_refl (l : List Char) : lexLe l l = true := by
  induction l with
  | nil => rfl
  | cons a as ih => simp [lexLe, ih]

theorem lexLe_total (l m : List Char) : lexLe l m = true ∨ lexLe m l = true := by
  induction l generalizing m with
  | nil => exact Or.inl rfl
  | cons a as ih =>
    cases m with
    | nil => exact Or.inr rfl
    | cons b bs =>
      by_cases hab : a.toNat < b.toNat
      · exact Or.inl (by simp [lexLe, hab])
      · by_cases hba : b.toNat < a.toNat
        · exact Or.inr (by simp [lexLe, hba])
        · rcases ih bs with h | h
          · exact Or.inl (by simp [lexLe, hab, hba, h])
          · exact Or.inr (by simp [lexLe, hab, hba, h])

theorem lexLe_trans {l m n : List Char} (h1 : lexLe l m = true)
    (h2 : lexLe m n = true) : lexLe l n = true := by
  induction l generalizing m n with
  | nil => rfl
  | cons a as ih =>
    cases m with
    | nil => simp [lexLe] at h1
    | cons b bs =>
      cases n with
      | nil => simp [lexLe] at h2
      | cons c cs =>
        simp only [lexLe] at h1 h2 ⊢
        by_cases hab : a.toNat < b.toNat
        · by_cases hbc : b.toNat < c.toNat
          · simp [Nat.lt_trans hab hbc]
          · by_cases hcb : c.toNat < b.toNat
            · simp [hab, hbc, hcb] at h2
            · have hbceq : b.toNat = c.toNat := Nat.le_antisymm (Nat.le_of_not_lt hcb) (Nat.le_of_not_lt hbc)
              simp [hbceq ▸ hab]
        · by_cases hba : b.toNat < a.toNat
          · simp [hab, hba] at h1
          · have habeq : a.toNat = b.toNat := Nat.le_antisymm (Nat.le_of_not_lt hba) (Nat.le_of_not_lt hab)
            by_cases hbc : b.toNat < c.toNat
            · simp [habeq ▸ hbc]
            · by_cases hcb : c.toNat < b.toNat
              · simp [hbc, hcb] at h2
              · simp only [hab, hba, if_neg, ite_false, if_false] at h1
                simp only [hbc, hcb, if_neg, ite_false, if_false] at h2
                have hac : ¬ a.toNat < c.toNat → True := fun _ => trivial
                simp [habeq, hbc, hcb, ih (m := bs) (by simpa using h1) (by simpa using h2)]

namespace RgbSingle

/-- RGB classification of rgb_single_automation_generic.scan_dcim_folders,
lines 181 to 193: glob tier star-underscore-D-dot-JPG, if empty tier
star-D-dot-JPG, if still empty the union of the generic upper and lower case
JPG globs. -/
def rgb_files (paths : List String) : List String :=
  let t1 := globSuffix "_D.JPG" paths
  if t1.isEmpty then
    let t2 := globSuffix "D.JPG" paths
    if t2.isEmpty then globSuffix ".JPG" paths ++ globSuffix ".jpg" paths
    else t2
  else t1

end RgbSingle

namespace RgbCombined

/-- RGB classification of rgb_combined_automation_generic.scan_dcim_folders,
lines 80 to 85: glob tier star-dot-JPG, if empty tier star-dot-jpg.  There is
no suffix-D tier in this variant. -/
def jpg_files (paths : List String) : List String :=
  let t1 := globSuffix ".JPG" paths
  if t1.isEmpty then globSuffix ".jpg" paths else t1

end RgbCombined

namespace RgbMsCombined

/-- RGB part of rgb_ms_combined_automation_generic.scan_dcim_folders_combined,
lines 83 to 91: same three tiers as the single RGB script. -/
def rgb_files (paths : List String) : List String :=
  let t1 := globSuffix "_D.JPG" paths
  if t1.isEmpty then
    let t2 := globSuffix "D.JPG" paths
    if t2.isEmpty then globSuffix ".JPG" paths ++ globSuffix ".jpg" paths
    else t2
  else t1

end RgbMsCombined

namespace RgbMsSingle

/-- RGB selection of rgb_ms_single_automation_generic.scan_dcim_folders_combined,
line 176: one filter keeping names that lower-case to a .jpg suffix and whose
upper-casing contains the letter D or the substring RGB.  No glob tiers. -/
def rgb_images (files : List String) : List String :=
  files.filter (fun f =>
    ".jpg".data.isSuffixOf (lowerStr f).data
      && ((upperStr f).data.contains 'D' || listIsInfixOf "RGB".data (upperStr f).data))

end RgbMsSingle

/-- C2 counterexample input: one file matching the specific suffix-D tier and
one generic JPG file in the same folder. -/
def c2paths : List String := ["P/IMG_1_D.JPG", "P/IMG_2.JPG"]

/-- C2: the claim asserts the three-tier first-non-empty RGB policy holds in
every variant that classifies RGB images.  It fails in the RGB-only
multi-route scanner: with a folder holding one suffix-D file and one plain
JPG, the specific tier is non-empty, yet that scanner returns the plain JPG
file as well, because its first tier is already the generic star-dot-JPG
glob. -/
theorem C2_counterexample :
    globSuffix "_D.JPG" c2paths = ["P/IMG_1_D.JPG"] ∧
    RgbCombined.jpg_files c2paths = ["P/IMG_1_D.JPG", "P/IMG_2.JPG"] ∧
    "P/IMG_2.JPG" ∈ RgbCombined.jpg_files c2paths ∧
    "_D.JPG".data.isSuffixOf "P/IMG_2.JPG".data = false := by
  refine ⟨by decide, by decide, by decide, by decide⟩

/-- C2 (amended): the three-tier policy (suffix underscore-D-dot-JPG, then
suffix D-dot-JPG, then the union of the generic JPG globs), returning the
first non-empty tier only, holds in the single RGB scanner and in the RGB+MS
multi-route scanner; the RGB-only multi-route scanner instead evaluates two
tiers (star-dot-JPG then star-dot-jpg), also first non-empty only; and when
an earlier tier is non-empty no file matched only by a later tier appears in
the result. -/
theorem C2_rgb_tier_policy :
    (∀ paths, globSuffix "_D.JPG" paths ≠ [] →
        RgbSingle.rgb_files paths = globSuffix "_D.JPG" paths ∧
        RgbMsCombined.rgb_files paths = globSuffix "_D.JPG" paths) ∧
    (∀ paths, globSuffix "_D.JPG" paths = [] → globSuffix "D.JPG" paths ≠ [] →
        RgbSingle.rgb_files paths = globSuffix "D.JPG" paths ∧
        RgbMsCombined.rgb_files paths = globSuffix "D.JPG" paths) ∧
    (∀ paths, globSuffix "_D.JPG" paths = [] → globSuffix "D.JPG" paths = [] →
        RgbSingle.rgb_files paths = globSuffix ".JPG" paths ++ globSuffix ".jpg" paths ∧
        RgbMsCombined.rgb_files paths = globSuffix ".JPG" paths ++ globSuffix ".jpg" paths) ∧
    (∀ paths, globSuffix ".JPG" paths ≠ [] →
        RgbCombined.jpg_files paths = globSuffix ".JPG" paths) ∧
    (∀ paths, globSuffix ".JPG" paths = [] →
        RgbCombined.jpg_files paths = globSuffix ".jpg" paths) ∧
    (∀ paths f, globSuffix "_D.JPG" paths ≠ [] → f ∈ RgbSingle.rgb_files paths →
        "_D.JPG".data.isSuffixOf f.data = true) := by
  refine ⟨?_, ?_, ?_, ?_, ?_, ?_⟩
  · intro paths h1
    constructor <;> simp [RgbSingle.rgb_files, RgbMsCombined.rgb_files, List.isEmpty_iff, h1]
  · intro paths h1 h2
    constructor <;> simp [RgbSingle.rgb_files, RgbMsCombined.rgb_files, List.isEmpty_iff, h1, h2]
  · intro paths h1 h2
    constructor <;> simp [RgbSingle.rgb_files, RgbMsCombined.rgb_files, List.isEmpty_iff, h1, h2]
  · intro paths h1
    simp [RgbCombined.jpg_files, List.isEmpty_iff, h1]
  · intro paths h1
    simp [RgbCombined.jpg_files, List.isEmpty_iff, h1]
  · intro paths f h1 hf
    have hres : RgbSingle.rgb_files paths = globSuffix "_D.JPG" paths := by
      simp [RgbSingle.rgb_files, List.isEmpty_iff, h1]
    rw [hres] at hf
    simpa [globSuffix] using (List.mem_filter.mp hf).2

/-- C2 witness: the amended tier policy evaluated at concrete inputs. -/
theorem C2_rgb_tier_policy_witness :
    RgbSingle.rgb_files c2paths = ["P/IMG_1_D.JPG"] ∧
    RgbCombined.jpg_files ["P/a.jpg"] = ["P/a.jpg"] := by
  constructor
  · have h := (C2_rgb_tier_policy.1 c2paths (by decide)).1
    rw [h]; decide
  · have h := C2_rgb_tier_policy.2.2.2.2.1 ["P/a.jpg"] (by decide)
    rw [h]; decide

/-- Model of os.path.basename: the part after the last separator. -/
def basename (p : String) : String :=
  String.mk (p.data.foldl (fun acc c => if c = '/' then [] else acc ++ [c]) [])

/-- Take exactly n digit characters, as a fixed-count digit group does. -/
def takeExactDigits : Nat → List Char → Option (List Char × List Char)
  | 0, cs => some ([], cs)
  | _ + 1, [] => none
  | n + 1, c :: cs =>
    if isDigitChar c then (takeExactDigits n cs).map (fun p => (c :: p.1, p.2))
    else none

/-- Split a character list into its maximal leading word-character run and
the rest, exactly how a greedy \w-plus group consumes input. -/
def splitWordChars : List Char → List Char × List Char
  | [] => ([], [])
  | c :: cs =>
    if isWordChar c then
      let p := splitWordChars cs
      (c :: p.1, p.2)
    else ([], c :: cs)

namespace MsSingle

/-- Parsed capture of one multispectral filename: 14-digit timestamp, image
sequence number, upper-cased band tag. -/
structure MsInfo where
  timestamp : String
  image_num : String
  band : String
deriving Repr, DecidableEq

/-- Embeds the anchored case-insensitive match of
ms_automation_generic.scan_dcim_folders_ms line 197: DJI underscore, exactly
14 digits captured, underscore, one or more digits captured, underscore MS
underscore, one or more word characters captured, dot TIF, anything after.
The greedy digit and word groups are deterministic here because a digit
cannot match the following underscore and a word character cannot match the
following dot.  The band tag is upper-cased as in line 201. -/
def parse_ms_filename (filename : String) : Option MsInfo :=
  match filename.data with
  | d :: j :: i :: '_' :: rest =>
    if asciiUpper d = 'D' && asciiUpper j = 'J' && asciiUpper i = 'I' then
      match takeExactDigits 14 rest with
      | some (ts, rest1) =>
        match rest1 with
        | '_' :: rest2 =>
          let p := splitDigits rest2
          if p.1.length = 0 then none
          else
            match p.2 with
            | '_' :: m :: s :: '_' :: rest3 =>
              if asciiUpper m = 'M' && asciiUpper s = 'S' then
                let w := splitWordChars rest3
                if w.1.length = 0 then none
                else
                  match w.2 with
                  | '.' :: t1 :: t2 :: t3 :: _ =>
                    if asciiUpper t1 = 'T' && asciiUpper t2 = 'I' && asciiUpper t3 = 'F' then
                      some ⟨String.mk ts, String.mk p.1, upperStr (String.mk w.1)⟩
                    else none
                  | _ => none
              else none
            | _ => none
        | _ => none
      | none => none
    else none
  | _ => none

/-- Python dict from band tag to file path: insertion-ordered association
list with in-place update. -/
abbrev BandMap := List (String × String)

/-- Dict write bands[band] = file_path. -/
def bandInsert (m : BandMap) (band file : String) : BandMap :=
  if m.any (fun q => q.1 == band) then
    m.map (fun q => if q.1 == band then (band, file) else q)
  else m ++ [(band, file)]

/-- Dict read bands[band], total rendering. -/
def bandLookup (m : BandMap) (band : String) : Option String :=
  (m.find? (fun q => q.1 == band)).map (fun q => q.2)

/-- Dict membership band in bands. -/
def bandMem (m : BandMap) (band : String) : Bool :=
  m.any (fun q => q.1 == band)

/-- Python dict from capture key to band dict, insertion ordered. -/
abbrev CaptureGroups := List (String × BandMap)

/-- The two dict writes of lines 204 to 206: create the inner dict if the
key is new, then write the band entry. -/
def groupsInsert (gs : CaptureGroups) (key band file : String) : CaptureGroups :=
  if gs.any (fun g => g.1 == key) then
    gs.map (fun g => if g.1 == key then (g.1, bandInsert g.2 band file) else g)
  else gs ++ [(key, bandInsert [] band file)]

/-- Per-band tallies, the band_counts dict of line 192. -/
structure BandCounts where
  g : Nat
  nir : Nat
  r : Nat
  re : Nat
deriving Repr, DecidableEq

/-- Line 208: if band in band_counts, increment it; other bands are ignored. -/
def bumpBand (bc : BandCounts) (band : String) : BandCounts :=
  if band == "G" then { bc with g := bc.g + 1 }
  else if band == "NIR" then { bc with nir := bc.nir + 1 }
  else if band == "R" then { bc with r := bc.r + 1 }
  else if band == "RE" then { bc with re := bc.re + 1 }
  else bc

/-- Accumulator of the file loop of lines 194 to 209. -/
structure MsScanAcc where
  capture_groups : CaptureGroups
  band_counts : BandCounts
deriving Repr, DecidableEq

/-- The file loop of lines 194 to 209: parse each basename, group the parsed
files by timestamp-plus-sequence capture key and tally recognised bands;
filenames that do not match the grammar are skipped. -/
def ms_scan_fold (ms_files : List String) : MsScanAcc :=
  ms_files.foldl (fun acc file_path =>
    match parse_ms_filename (basename file_path) with
    | some info =>
      { capture_groups :=
          groupsInsert acc.capture_groups (info.timestamp ++ "_" ++ info.image_num)
            info.band file_path
        band_counts := bumpBand acc.band_counts info.band }
    | none => acc) ⟨[], ⟨0, 0, 0, 0⟩⟩

/-- Canonical band order of lines 216 and 219. -/
def required_bands : List String := ["G", "NIR", "R", "RE"]

/-- Line 216: a capture group is complete when its dict has exactly four
entries and all four required bands are among them. -/
def isCompleteSet (bands : BandMap) : Bool :=
  bands.length == 4 && required_bands.all (fun b => bandMem bands b)

/-- The group loop of lines 215 to 220: count complete captures and append
their member files in the canonical band order G, NIR, R, RE. -/
def count_and_collect (gs : CaptureGroups) : Nat × List String :=
  gs.foldl (fun acc g =>
    if isCompleteSet g.2 then
      (acc.1 + 1, acc.2 ++ required_bands.filterMap (fun b => bandLookup g.2 b))
    else acc) (0, [])

/-- Per-route result record of the MS scanner (lines 222 to 232), for one
route folder whose glob produced the given ms_files list. -/
structure MsRouteScan where
  complete_sets : Nat
  ms_files_count : Nat
  image_files : List String
  band_counts : BandCounts
deriving Repr, DecidableEq

/-- The multispectral set grouper of scan_dcim_folders_ms, lines 191 to 232,
applied to the file list of one route folder. -/
def scan_route_ms (ms_files : List String) : MsRouteScan :=
  let acc := ms_scan_fold ms_files
  let cc := count_and_collect acc.capture_groups
  ⟨cc.1, ms_files.length, cc.2, acc.band_counts⟩

theorem count_and_collect_go (gs : CaptureGroups) (n : Nat) (l : List String) :
    gs.foldl (fun acc g =>
      if isCompleteSet g.2 then
        (acc.1 + 1, acc.2 ++ required_bands.filterMap (fun b => bandLookup g.2 b))
      else acc) (n, l)
    = (n + (gs.filter (fun g => isCompleteSet g.2)).length,
       l ++ (gs.filter (fun g => isCompleteSet g.2)).flatMap
          (fun g => required_bands.filterMap (fun b => bandLookup g.2 b))) := by
  induction gs generalizing n l with
  | nil => simp
  | cons g rest ih =>
    by_cases hg : isCompleteSet g.2
    · simp [hg, ih, Nat.add_assoc, Nat.add_comm 1]
    · simp [hg, ih]

/-- Characterisation of the group loop: the complete-set count is the number
of groups containing all four bands, and the emitted file list is the
concatenation, in group insertion order, of the complete groups in canonical
band order. -/
theorem count_and_collect_eq (gs : CaptureGroups) :
    count_and_collect gs
    = ((gs.filter (fun g => isCompleteSet g.2)).length,
       (gs.filter (fun g => isCompleteSet g.2)).flatMap
          (fun g => required_bands.filterMap (fun b => bandLookup g.2 b))) := by
  simpa using count_and_collect_go gs 0 []

end MsSingle

/-- C3 scenario input: eight TIFF files, four bands for each of two capture
keys of the same timestamp. -/
def c3files : List String :=
  ["DJI_20240101080000_0001_MS_G.TIF", "DJI_20240101080000_0001_MS_NIR.TIF",
   "DJI_20240101080000_0001_MS_R.TIF", "DJI_20240101080000_0001_MS_RE.TIF",
   "DJI_20240101080000_0002_MS_G.TIF", "DJI_20240101080000_0002_MS_NIR.TIF",
   "DJI_20240101080000_0002_MS_R.TIF", "DJI_20240101080000_0002_MS_RE.TIF"]

/-- C3: the multispectral set grouper extracts (timestamp, sequence, band)
per filename, groups by capture key, counts exactly the groups holding all
four required bands, emits the files of each complete group in the canonical
order G, NIR, R, RE (group order preserved), reports the raw matched-file
count, a group with only three of the four bands is never complete, and the
concrete eight-file two-capture scenario yields complete_sets 2 and
ms_files_count 8. -/
theorem C3_ms_set_grouper :
    (∀ ms_files,
        (MsSingle.scan_route_ms ms_files).complete_sets
          = ((MsSingle.ms_scan_fold ms_files).capture_groups.filter
              (fun g => MsSingle.isCompleteSet g.2)).length ∧
        (MsSingle.scan_route_ms ms_files).image_files
          = ((MsSingle.ms_scan_fold ms_files).capture_groups.filter
              (fun g => MsSingle.isCompleteSet g.2)).flatMap
              (fun g => MsSingle.required_bands.filterMap
                (fun b => MsSingle.bandLookup g.2 b)) ∧
        (MsSingle.scan_route_ms ms_files).ms_files_count = ms_files.length) ∧
    (∀ bands : MsSingle.BandMap, bands.length = 3 →
        MsSingle.isCompleteSet bands = false) ∧
    (∀ bands : MsSingle.BandMap, MsSingle.isCompleteSet bands = true →
        ∃ fg fn fr fe,
          MsSingle.bandLookup bands "G" = some fg ∧
          MsSingle.bandLookup bands "NIR" = some fn ∧
          MsSingle.bandLookup bands "R" = some fr ∧
          MsSingle.bandLookup bands "RE" = some fe ∧
          MsSingle.required_bands.filterMap (fun b => MsSingle.bandLookup bands b)
            = [fg, fn, fr, fe]) ∧
    ((MsSingle.scan_route_ms c3files).complete_sets = 2 ∧
      (MsSingle.scan_route_ms c3files).ms_files_count = 8) := by
  refine ⟨?_, ?_, ?_, by decide, by decide⟩
  · intro ms_files
    refine ⟨?_, ?_, rfl⟩ <;>
      simp [MsSingle.scan_route_ms, MsSingle.count_and_collect_eq]
  · intro bands h3
    simp [MsSingle.isCompleteSet, h3]
  · intro bands hc
    simp only [MsSingle.isCompleteSet, Bool.and_eq_true, List.all_eq_true] at hc
    have hget : ∀ b ∈ MsSingle.required_bands, ∃ f, MsSingle.bandLookup bands b = some f := by
      intro b hb
      have hmem := hc.2 b hb
      simp only [MsSingle.bandMem, List.any_eq_true] at hmem
      obtain ⟨q, hq, hqb⟩ := hmem
      have : (bands.find? (fun q => q.1 == b)).isSome := by
        rw [List.find?_isSome]
        exact ⟨q, hq, hqb⟩
      obtain ⟨q0, hq0⟩ := Option.isSome_iff_exists.mp this
      exact ⟨q0.2, by simp [MsSingle.bandLookup, hq0]⟩
    obtain ⟨fg, hg⟩ := hget "G" (by simp [MsSingle.required_bands])
    obtain ⟨fn, hn⟩ := hget "NIR" (by simp [MsSingle.required_bands])
    obtain ⟨fr, hr⟩ := hget "R" (by simp [MsSingle.required_bands])
    obtain ⟨fe, he⟩ := hget "RE" (by simp [MsSingle.required_bands])
    exact ⟨fg, fn, fr, fe, hg, hn, hr, he, by
      simp [MsSingle.required_bands, List.filterMap, hg, hn, hr, he]⟩

/-- C3 witness: the universal clauses of the grouper theorem evaluated on the
concrete eight-file scenario and on a concrete three-band group. -/
theorem C3_ms_set_grouper_witness :
    (MsSingle.scan_route_ms c3files).ms_files_count = c3files.length ∧
    MsSingle.isCompleteSet [("G", "a"), ("NIR", "b"), ("R", "c")] = false :=
  ⟨(C3_ms_set_grouper.1 c3files).2.2,
   C3_ms_set_grouper.2.1 [("G", "a"), ("NIR", "b"), ("R", "c")] rfl⟩

/-- Versioned name scheme shared by all versioners: the base name for
version 1, base_v-n from version 2 on. -/
def versioned_name (base : String) (v : Nat) : String :=
  if v = 1 then base else base ++ "_v" ++ toString v

/-- Effect of os.makedirs with exist_ok on the probed state of one path: an
absent path becomes an existing empty folder, existing paths are unchanged. -/
def makedirs (fs : String → DirState) (p : String) : String → DirState :=
  fun q =>
    if q = p then
      match fs p with
      | DirState.absent => DirState.empty
      | s => s
    else fs q

namespace RgbSingle

/-- Folder name probed at version v by create_project_structure of
rgb_single_automation_generic, lines 209 and 226. -/
def project_folder (route_number : String) (v : Nat) : String :=
  versioned_name ("route_" ++ route_number ++ "_RGB") v

/-- Project file name at version v, lines 210 and 227. -/
def project_file (route_number : String) (v : Nat) : String :=
  versioned_name ("route_" ++ route_number ++ "_RGB") v ++ ".psx"

/-- Line 222 and 224: a version is blocked when its folder path exists and
os.listdir returns entries. -/
def blockedAt (fs : String → DirState) (output_base route_number : String) (v : Nat) : Bool :=
  fs (pathJoin output_base (project_folder route_number v)) == DirState.nonempty

/-- Version selected by the while loop of lines 217 to 235: the least
version, from 1 up, whose folder is absent or exists empty.  The loop
terminates exactly when such a version exists, which the hypothesis
supplies. -/
def chosen_version (fs : String → DirState) (route_number output_base : String)
    (h : ∃ k, blockedAt fs output_base route_number (k + 1) = false) : Nat :=
  Nat.find h + 1

/-- create_project_structure of rgb_single_automation_generic, lines 207 to
244: returns the versioned (project folder path, project file path) pair for
the selected version. -/
def create_project_structure (fs : String → DirState) (route_number output_base : String)
    (h : ∃ k, blockedAt fs output_base route_number (k + 1) = false) : String × String :=
  let v := chosen_version fs route_number output_base h
  let project_path := pathJoin output_base (project_folder route_number v)
  (project_path, pathJoin project_path (project_file route_number v))

theorem blockedAt_makedirs (fs : String → DirState) (p output_base route_number : String)
    (v : Nat) :
    blockedAt (makedirs fs p) output_base route_number v
      = blockedAt fs output_base route_number v := by
  unfold blockedAt makedirs
  by_cases hq : pathJoin output_base (project_folder route_number v) = p
  · rw [hq]
    simp only [if_pos rfl]
    cases hfs : fs p <;> rfl
  · simp [hq]

end RgbSingle

namespace RgbMsSingle

/-- Project folder name probed at version v by create_project_structure of
rgb_ms_single_automation_generic, lines 125 to 133. -/
def project_folder_name (route_name : String) (v : Nat) : String :=
  versioned_name ("route_" ++ route_name ++ "_Combined") v

/-- Line 137: in this variant a version is blocked as soon as its folder
path exists, empty or not. -/
def existsAt (fs : String → DirState) (base_path route_name : String) (v : Nat) : Bool :=
  !(fs (pathJoin base_path (project_folder_name route_name v)) == DirState.absent)

/-- create_project_structure of rgb_ms_single_automation_generic, lines 123
to 148: selects the least version, from 1 up, whose folder path does not
exist, and returns the (folder path, folder name) pair. -/
def create_project_structure (fs : String → DirState) (base_path route_name : String)
    (h : ∃ k, existsAt fs base_path route_name (k + 1) = false) : String × String :=
  let v := Nat.find h + 1
  (pathJoin base_path (project_folder_name route_name v), project_folder_name route_name v)

end RgbMsSingle

/-- C4 counterexample file system: the base combined project folder exists
and is empty, everything else is absent. -/
def c4fs : String → DirState :=
  fun q => if q = "OUT/route_001_Combined" then DirState.empty else DirState.absent

/-- C4: the claim asserts that every versioner variant, including
create_project_structure of the single combined RGB+MS script, reuses an
existing empty folder without incrementing.  That variant increments past
any existing folder: with route_001_Combined existing and empty it returns
the version 2 name instead of reusing the empty folder. -/
theorem C4_counterexample :
    c4fs "OUT/route_001_Combined" = DirState.empty ∧
    (RgbMsSingle.create_project_structure c4fs "OUT" "001"
        ⟨1, by decide⟩).2 = "route_001_Combined_v2" := by
  constructor
  · rfl
  · have hfind : Nat.find (p := fun k => RgbMsSingle.existsAt c4fs "OUT" "001" (k + 1) = false)
        ⟨1, by decide⟩ = 1 := by
      rw [Nat.find_eq_iff]
      refine ⟨by decide, ?_⟩
      intro n hn
      have hn0 : n = 0 := by omega
      subst hn0
      decide
    simp only [RgbMsSingle.create_project_structure, hfind]
    decide

/-- Witness file system for the single RGB versioner: the base project
folder exists and is empty, everything else is absent. -/
def c4bfs : String → DirState :=
  fun q => if q = "OUT/route_001_RGB" then DirState.empty else DirState.absent

/-- C5 scenario file system: route_005_RGB exists and contains files,
everything else is absent. -/
def c5fs : String → DirState :=
  fun q => if q = "OUT/route_005_RGB" then DirState.nonempty else DirState.absent

/-- C4 (amended): the listdir-based versioner of the single RGB script is
stable under its own makedirs effect (a second call against the state left
by the first returns the same pair) and reuses an existing empty base folder
without incrementing; the versioner of the single combined RGB+MS script is
deterministic in the file-system state but only ever returns an absent
folder, so it increments past an existing empty folder instead of reusing
it. -/
theorem C4_versioner_idempotent :
    (∀ (fs : String → DirState) (rn ob : String)
        (h : ∃ k, RgbSingle.blockedAt fs ob rn (k + 1) = false)
        (h2 : ∃ k, RgbSingle.blockedAt
            (makedirs fs (RgbSingle.create_project_structure fs rn ob h).1) ob rn
            (k + 1) = false),
        RgbSingle.create_project_structure
            (makedirs fs (RgbSingle.create_project_structure fs rn ob h).1) rn ob h2
          = RgbSingle.create_project_structure fs rn ob h) ∧
    (∀ (fs : String → DirState) (rn ob : String)
        (h : ∃ k, RgbSingle.blockedAt fs ob rn (k + 1) = false),
        fs (pathJoin ob (RgbSingle.project_folder rn 1)) = DirState.empty →
        RgbSingle.create_project_structure fs rn ob h
          = (pathJoin ob (RgbSingle.project_folder rn 1),
             pathJoin (pathJoin ob (RgbSingle.project_folder rn 1))
               (RgbSingle.project_file rn 1))) ∧
    (∀ (fs : String → DirState) (bp rn : String)
        (h : ∃ k, RgbMsSingle.existsAt fs bp rn (k + 1) = false),
        fs ((RgbMsSingle.create_project_structure fs bp rn h).1) = DirState.absent) := by
  refine ⟨?_, ?_, ?_⟩
  · intro fs rn ob h h2
    have hfind : Nat.find h2 = Nat.find h := by
      rw [Nat.find_eq_iff]
      constructor
      · rw [RgbSingle.blockedAt_makedirs]
        exact Nat.find_spec h
      · intro n hn hPn
        rw [RgbSingle.blockedAt_makedirs] at hPn
        exact Nat.find_min h hn hPn
    simp only [RgbSingle.create_project_structure, RgbSingle.chosen_version, hfind]
  · intro fs rn ob h hemp
    have hfind : Nat.find h = 0 := by
      rw [Nat.find_eq_zero]
      simp [RgbSingle.blockedAt, hemp]
    simp only [RgbSingle.create_project_structure, RgbSingle.chosen_version, hfind]
  · intro fs bp rn h
    have hgoal : (RgbMsSingle.create_project_structure fs bp rn h).1
        = pathJoin bp (RgbMsSingle.project_folder_name rn (Nat.find h + 1)) := rfl
    rw [hgoal]
    have hspec := Nat.find_spec h
    generalize hk : Nat.find h = k at hspec ⊢
    simp only [RgbMsSingle.existsAt, Bool.not_eq_false', beq_iff_eq] at hspec
    exact hspec

/-- C4 witness: the empty-folder reuse clause at a concrete state where the
base RGB folder exists empty, and the absent-only clause of the combined
variant at the C4 counterexample state. -/
theorem C4_versioner_idempotent_witness :
    RgbSingle.create_project_structure c4bfs "001" "OUT" ⟨0, by decide⟩
        = ("OUT/route_001_RGB", "OUT/route_001_RGB/route_001_RGB.psx") ∧
    c4fs ((RgbMsSingle.create_project_structure c4fs "OUT" "001"
        ⟨1, by decide⟩).1) = DirState.absent := by
  constructor
  · rw [C4_versioner_idempotent.2.1 c4bfs "001" "OUT" ⟨0, by decide⟩ rfl]
    decide
  · exact C4_versioner_idempotent.2.2 c4fs "OUT" "001" ⟨1, by decide⟩

/-- C5: the single RGB versioner starts at version 1 and increments only
past versions whose folder exists non-empty; the selected version is never
blocked, so the returned project folder is never an existing non-empty
folder; and with route_005_RGB existing non-empty the returned pair is the
version 2 folder and file. -/
theorem C5_versioner_no_overwrite :
    (∀ (fs : String → DirState) (rn ob : String)
        (h : ∃ k, RgbSingle.blockedAt fs ob rn (k + 1) = false),
        fs ((RgbSingle.create_project_structure fs rn ob h).1) ≠ DirState.nonempty) ∧
    (∀ (fs : String → DirState) (rn ob : String)
        (h : ∃ k, RgbSingle.blockedAt fs ob rn (k + 1) = false),
        1 ≤ RgbSingle.chosen_version fs rn ob h ∧
        RgbSingle.blockedAt fs ob rn (RgbSingle.chosen_version fs rn ob h) = false ∧
        ∀ v, 1 ≤ v → v < RgbSingle.chosen_version fs rn ob h →
          RgbSingle.blockedAt fs ob rn v = true) ∧
    RgbSingle.create_project_structure c5fs "005" "OUT" ⟨1, by decide⟩
      = ("OUT/route_005_RGB_v2", "OUT/route_005_RGB_v2/route_005_RGB_v2.psx") := by
  refine ⟨?_, ?_, ?_⟩
  · intro fs rn ob h
    have hgoal : (RgbSingle.create_project_structure fs rn ob h).1
        = pathJoin ob (RgbSingle.project_folder rn (Nat.find h + 1)) := rfl
    rw [hgoal]
    have hspec := Nat.find_spec h
    generalize hk : Nat.find h = k at hspec ⊢
    simp only [RgbSingle.blockedAt, beq_eq_false_iff_ne, ne_eq] at hspec
    exact hspec
  · intro fs rn ob h
    refine ⟨by simp [RgbSingle.chosen_version], Nat.find_spec h, ?_⟩
    intro v hv1 hvlt
    have hvm : v - 1 < Nat.find h := by
      simp only [RgbSingle.chosen_version] at hvlt
      omega
    have hmin := Nat.find_min h hvm
    have hv : v - 1 + 1 = v := by omega
    rw [hv] at hmin
    cases hb : RgbSingle.blockedAt fs ob rn v
    · exact absurd hb hmin
    · rfl
  · have hfind : Nat.find (p := fun k => RgbSingle.blockedAt c5fs "OUT" "005" (k + 1) = false)
        ⟨1, by decide⟩ = 1 := by
      rw [Nat.find_eq_iff]
      refine ⟨by decide, ?_⟩
      intro n hn
      have hn0 : n = 0 := by omega
      subst hn0
      decide
    simp only [RgbSingle.create_project_structure, RgbSingle.chosen_version, hfind]
    decide

/-- C5 witness: the no-overwrite clause evaluated at the C5 scenario state. -/
theorem C5_versioner_no_overwrite_witness :
    c5fs ((RgbSingle.create_project_structure c5fs "005" "OUT"
        ⟨1, by decide⟩).1) ≠ DirState.nonempty :=
  C5_versioner_no_overwrite.1 c5fs "005" "OUT" ⟨1, by decide⟩

/-- Observable statistics of one engine chunk used by the merge validation:
the camera count and one projection count per marker. -/
structure ChunkStats where
  cameras : Nat
  marker_projections : List Nat
deriving Repr, DecidableEq

/-- Sum of len(chunk.cameras) over the chunks to merge. -/
def total_cameras (chunks : List ChunkStats) : Nat :=
  (chunks.map (fun c => c.cameras)).sum

/-- Sum of len(marker.projections) over the markers of one chunk. -/
def total_projections (c : ChunkStats) : Nat := c.marker_projections.sum

/-- Engine-produced outcome of doc.mergeChunks and the chunk cleanup, as
observed by the validation code: the document chunk count right after the
merge and the statistics of the merged chunk. -/
structure MergeOutcome where
  chunks_after_merge : Nat
  merged : ChunkStats
deriving Repr, DecidableEq

/-- Result of the merge step: the warning lines it printed, and either the
merged chunk statistics or the message of the RuntimeError it raised. -/
structure MergeReport where
  warnings : List String
  result : Except String ChunkStats
deriving Repr

/-- merge_chunks_with_validation, the common body of the three multi-route
variants (rgb_combined lines 205 to 272, ms_combined lines 253 to 320,
rgb_ms_combined lines 305 to 403); label is the variant prefix of the
re-raised error.  Engine effects are inputs: chunks_before is the document
chunk count before the merge and outcome is what the engine produced.  The
camera-count comparison prints a warning line; a zero post-merge projection
count raises, and the outer handler re-raises every inner error as a chunk
merge failure. -/
def merge_chunks_with_validation (label : String) (chunks_before : Nat)
    (chunks_to_merge : List ChunkStats) (outcome : MergeOutcome) : MergeReport :=
  let total_cameras_before := total_cameras chunks_to_merge
  if outcome.chunks_after_merge ≤ chunks_before then
    ⟨[], Except.error (label ++ " chunk merge failed: No new chunk created during merge!")⟩
  else
    let warnings :=
      if outcome.merged.cameras ≠ total_cameras_before then
        ["WARNING: Camera count mismatch! Expected " ++ toString total_cameras_before
          ++ ", got " ++ toString outcome.merged.cameras]
      else []
    if total_projections outcome.merged = 0 then
      ⟨warnings,
       Except.error (label ++ " chunk merge failed: No marker projections found after merge!")⟩
    else ⟨warnings, Except.ok outcome.merged⟩

/-- Step 1.5 of process_combined_routes in each multi-route variant: when
the merge raised, the route run returns False before any later engine
stage; True means the run continues to the shared pipeline. -/
def merge_stage_ok (r : MergeReport) : Bool :=
  match r.result with
  | Except.error _ => false
  | Except.ok _ => true

/-- C6: in every multi-route variant the merge step raises when the merged
chunk has zero marker projections, so the route run aborts, and it reports a
camera-count warning exactly when the camera total is not conserved across
the merge. -/
theorem C6_merge_validation :
    ∀ (label : String) (chunks_before : Nat) (chunks_to_merge : List ChunkStats)
      (outcome : MergeOutcome),
      (total_projections outcome.merged = 0 →
        ∃ msg,
          (merge_chunks_with_validation label chunks_before chunks_to_merge outcome).result
            = Except.error msg ∧
          merge_stage_ok
            (merge_chunks_with_validation label chunks_before chunks_to_merge outcome)
            = false) ∧
      (chunks_before < outcome.chunks_after_merge →
        ((merge_chunks_with_validation label chunks_before chunks_to_merge outcome).warnings
            ≠ [] ↔ outcome.merged.cameras ≠ total_cameras chunks_to_merge)) := by
  intro label chunks_before chunks_to_merge outcome
  constructor
  · intro hz
    by_cases hle : outcome.chunks_after_merge ≤ chunks_before
    · exact ⟨label ++ " chunk merge failed: No new chunk created during merge!",
        by simp [merge_chunks_with_validation, hle], by
          simp [merge_stage_ok, merge_chunks_with_validation, hle]⟩
    · exact ⟨label ++ " chunk merge failed: No marker projections found after merge!",
        by simp [merge_chunks_with_validation, hle, hz], by
          simp [merge_stage_ok, merge_chunks_with_validation, hle, hz]⟩
  · intro hgt
    have hle : ¬ outcome.chunks_after_merge ≤ chunks_before := Nat.not_le.mpr hgt
    by_cases hmis : outcome.merged.cameras = total_cameras chunks_to_merge
    · by_cases hz : total_projections outcome.merged = 0 <;>
        simp [merge_chunks_with_validation, hle, hmis, hz]
    · by_cases hz : total_projections outcome.merged = 0 <;>
        simp [merge_chunks_with_validation, hle, hmis, hz]

/-- C6 witness: a concrete two-chunk merge whose merged chunk keeps all five
cameras but loses every marker projection: the step errors and the run
aborts, and no camera warning is reported. -/
theorem C6_merge_validation_witness :
    (∃ msg,
      (merge_chunks_with_validation "RGB" 2 [⟨2, [3]⟩, ⟨3, [4]⟩]
          ⟨3, ⟨5, [0, 0]⟩⟩).result = Except.error msg ∧
      merge_stage_ok (merge_chunks_with_validation "RGB" 2 [⟨2, [3]⟩, ⟨3, [4]⟩]
          ⟨3, ⟨5, [0, 0]⟩⟩) = false) ∧
    ((merge_chunks_with_validation "RGB" 2 [⟨2, [3]⟩, ⟨3, [4]⟩]
        ⟨3, ⟨5, [0, 0]⟩⟩).warnings ≠ [] ↔
      (5 : Nat) ≠ total_cameras [⟨2, [3]⟩, ⟨3, [4]⟩]) :=
  ⟨(C6_merge_validation "RGB" 2 [⟨2, [3]⟩, ⟨3, [4]⟩] ⟨3, ⟨5, [0, 0]⟩⟩).1 (by decide),
   (C6_merge_validation "RGB" 2 [⟨2, [3]⟩, ⟨3, [4]⟩] ⟨3, ⟨5, [0, 0]⟩⟩).2 (by decide)⟩

/-- Save oracle: whether an engine save call succeeds, indexed by whether
the chunks parameter is passed to doc.save. -/
def SaveOracle : Type := Bool → Bool

/-- enhanced_save_project of the single-route scripts (rgb_single lines 16
to 41, ms_automation lines 16 to 41, rgb_ms_single lines 15 to 40): the
primary save passes the chunk list (and archive flag); when it raises, one
fallback save without the chunks parameter is tried inside the handler.
Both handlers swallow the exception, so the function never raises.  Returns
the reported Boolean and the save attempts made, each recorded by its
with-chunks flag. -/
def enhanced_save_project_single (save_ok : SaveOracle) : Bool × List Bool :=
  if save_ok true then (true, [true])
  else if save_ok false then (true, [true, false])
  else (false, [true, false])

/-- enhanced_save_project of the multi-route combined scripts (rgb_combined
lines 90 to 98, ms_combined lines 111 to 119, rgb_ms_combined lines 134 to
142): one save without the chunks parameter, no fallback; a raise is caught
and reported as False. -/
def enhanced_save_project_multi (save_ok : SaveOracle) : Bool × List Bool :=
  (save_ok false, [false])

/-- C7: the claim asserts every variant retries once without the
chunk-scoping argument and returns False only after both the primary save
and the fallback fail.  The combined multi-route variants have no fallback:
when their single unscoped save fails they return False after exactly one
attempt. -/
theorem C7_counterexample :
    enhanced_save_project_multi (fun _ => false) = (false, [false]) ∧
    (enhanced_save_project_multi (fun _ => false)).2.length = 1 := by
  constructor <;> rfl

/-- C7 (amended): the single-route scripts have exactly one level of
fallback: the result is the disjunction of the primary chunk-scoped save and
the unscoped fallback, the fallback is attempted exactly when the primary
fails, and no further retries happen; the combined multi-route scripts
perform a single unscoped save with no fallback. -/
theorem C7_save_fallback :
    (∀ save_ok : SaveOracle,
        (enhanced_save_project_single save_ok).1 = (save_ok true || save_ok false) ∧
        (save_ok true = true → (enhanced_save_project_single save_ok).2 = [true]) ∧
        (save_ok true = false →
          (enhanced_save_project_single save_ok).2 = [true, false]) ∧
        (enhanced_save_project_single save_ok).2.length ≤ 2) ∧
    (∀ save_ok : SaveOracle,
        enhanced_save_project_multi save_ok = (save_ok false, [false])) := by
  constructor
  · intro save_ok
    by_cases h1 : save_ok true <;> by_cases h2 : save_ok false <;>
      simp [enhanced_save_project_single, h1, h2]
  · intro save_ok
    rfl

/-- C7 witness: the amended save contract at concrete oracles: a failing
primary with a succeeding fallback reports True after both attempts, and the
multi-route save of a failing engine reports False after its only attempt. -/
theorem C7_save_fallback_witness :
    ((fun c => !c) true = false →
      (enhanced_save_project_single (fun c => !c)).2 = [true, false]) ∧
    enhanced_save_project_multi (fun _ => false) = ((fun (_ : Bool) => false) false, [false]) :=
  ⟨(C7_save_fallback.1 (fun c => !c)).2.2.1,
   C7_save_fallback.2 (fun _ => false)⟩

/-- Numeric value of one ASCII digit character. -/
def digitVal (c : Char) : Nat := c.toNat - 48

/-- Numeric value of a three-digit route identifier; other shapes map to 0. -/
def routeVal (s : String) : Nat :=
  match s.data with
  | [a, b, c] => digitVal a * 100 + digitVal b * 10 + digitVal c
  | _ => 0

theorem lexLe_digits3 {a b c d e f : Char}
    (ha : isDigitChar a = true) (hb : isDigitChar b = true) (hc : isDigitChar c = true)
    (hd : isDigitChar d = true) (he : isDigitChar e = true) (hf : isDigitChar f = true) :
    (lexLe [a, b, c] [d, e, f] = true) ↔
      (digitVal a * 100 + digitVal b * 10 + digitVal c
        ≤ digitVal d * 100 + digitVal e * 10 + digitVal f) := by
  simp only [isDigitChar, Bool.and_eq_true, decide_eq_true_eq] at ha hb hc hd he hf
  simp only [lexLe, digitVal]
  split_ifs with h1 h2 h3 h4 h5 h6 <;> simp <;> omega

theorem routeNumberOfFolder_digits {folder rn : String}
    (h : routeNumberOfFolder folder = some rn) :
    ∃ a b c, rn.data = [a, b, c] ∧ isDigitChar a = true ∧ isDigitChar b = true ∧
      isDigitChar c = true := by
  unfold routeNumberOfFolder at h
  split at h
  · dsimp only at h
    split at h
    · split at h
      · next a b c tail hteq =>
        split at h
        · next hcond =>
          simp only [Bool.and_eq_true] at hcond
          refine ⟨a, b, c, ?_, hcond.1.1, hcond.1.2, hcond.2⟩
          have hinj := Option.some.inj h
          rw [← hinj]
        · exact absurd h (by simp)
      · exact absurd h (by simp)
    · exact absurd h (by simp)
  · exact absurd h (by simp)

namespace RgbSingle

/-- RouteFolder record appended by the scan, lines 196 to 202. -/
structure RouteFolder where
  folder_name : String
  folder_path : String
  route_number : String
  rgb_count : Nat
  image_files : List String
deriving Repr, DecidableEq

/-- Body of the scan loop of lines 173 to 203 for one os.listdir entry:
non-directories and names outside the route grammar yield nothing; otherwise
the tiered RGB classifier runs on the joined file paths, and a folder whose
classification is empty yields nothing. -/
def scan_entry (dcim_path : String) (e : DirEntry) : Option RouteFolder :=
  if e.is_dir then
    match routeNumberOfFolder e.name with
    | some route_number =>
      let folder_path := pathJoin dcim_path e.name
      let files := rgb_files (e.files.map (fun f => pathJoin folder_path f))
      if files.isEmpty then none
      else some ⟨e.name, folder_path, route_number, files.length, files⟩
    | none => none
  else none

/-- scan_dcim_folders of rgb_single_automation_generic, lines 160 to 205.
The Option input models the os.path.exists guard: none (missing DCIM folder)
returns the empty catalog.  Otherwise each qualifying entry contributes one
record in listing order and the catalog is sorted ascending by route_number
under Python string comparison; CPython sorted is a stable sort, which is
extensionally insertion sort. -/
def scan_dcim_folders (dcim_path : String) (dcim : Option (List DirEntry)) :
    List RouteFolder :=
  match dcim with
  | none => []
  | some listing =>
    List.insertionSort (fun x y => strLe x.route_number y.route_number = true)
      (listing.filterMap (scan_entry dcim_path))

theorem scan_entry_spec {dcim_path : String} {e : DirEntry} {rf : RouteFolder}
    (h : scan_entry dcim_path e = some rf) :
    routeNumberOfFolder rf.folder_name = some rf.route_number ∧
    rf.image_files ≠ [] ∧ rf.rgb_count = rf.image_files.length := by
  unfold scan_entry at h
  split at h
  · split at h
    · next route_number heq =>
      dsimp only at h
      split at h
      · exact absurd h (by simp)
      · next hne =>
        cases Option.some.inj h
        refine ⟨heq, ?_, rfl⟩
        simpa [List.isEmpty_iff] using hne
    · exact absurd h (by simp)
  · exact absurd h (by simp)

end RgbSingle

/-- C8: every catalog entry comes from a directory whose name matches the
route grammar and whose classification found images (rgb_count being their
number); a missing DCIM folder or a listing with no qualifying entry returns
the empty catalog rather than an error; and the catalog is pairwise sorted
ascending by route_number both under Python string comparison and under the
numeric value of the three-digit identifier. -/
theorem C8_scan_catalog :
    (∀ (dcim_path : String) (listing : List DirEntry) (rf : RgbSingle.RouteFolder),
        rf ∈ RgbSingle.scan_dcim_folders dcim_path (some listing) →
        routeNumberOfFolder rf.folder_name = some rf.route_number ∧
        rf.image_files ≠ [] ∧ rf.rgb_count = rf.image_files.length) ∧
    (∀ dcim_path, RgbSingle.scan_dcim_folders dcim_path none = []) ∧
    (∀ (dcim_path : String) (listing : List DirEntry),
        (∀ e ∈ listing, RgbSingle.scan_entry dcim_path e = none) →
        RgbSingle.scan_dcim_folders dcim_path (some listing) = []) ∧
    (∀ dcim_path dcim,
        (RgbSingle.scan_dcim_folders dcim_path dcim).Pairwise
          (fun x y => strLe x.route_number y.route_number = true)) ∧
    (∀ dcim_path dcim,
        (RgbSingle.scan_dcim_folders dcim_path dcim).Pairwise
          (fun x y => routeVal x.route_number ≤ routeVal y.route_number)) := by
  have hmem : ∀ (dcim_path : String) (listing : List DirEntry) (rf : RgbSingle.RouteFolder),
      rf ∈ RgbSingle.scan_dcim_folders dcim_path (some listing) →
      routeNumberOfFolder rf.folder_name = some rf.route_number ∧
      rf.image_files ≠ [] ∧ rf.rgb_count = rf.image_files.length := by
    intro dcim_path listing rf hrf
    have hperm := List.perm_insertionSort
      (fun x y : RgbSingle.RouteFolder => strLe x.route_number y.route_number = true)
      (listing.filterMap (RgbSingle.scan_entry dcim_path))
    have hrf2 : rf ∈ listing.filterMap (RgbSingle.scan_entry dcim_path) :=
      hperm.mem_iff.mp hrf
    obtain ⟨e, _, hsome⟩ := List.mem_filterMap.mp hrf2
    exact RgbSingle.scan_entry_spec hsome
  have hsorted : ∀ (dcim_path : String) (dcim : Option (List DirEntry)),
      (RgbSingle.scan_dcim_folders dcim_path dcim).Pairwise
        (fun x y => strLe x.route_number y.route_number = true) := by
    intro dcim_path dcim
    cases dcim with
    | none => simp [RgbSingle.scan_dcim_folders]
    | some listing =>
      haveI hT : IsTotal RgbSingle.RouteFolder
          (fun x y => strLe x.route_number y.route_number = true) :=
        ⟨fun x y => lexLe_total x.route_number.data y.route_number.data⟩
      haveI hTr : IsTrans RgbSingle.RouteFolder
          (fun x y => strLe x.route_number y.route_number = true) :=
        ⟨fun _ _ _ h1 h2 => lexLe_trans h1 h2⟩
      exact List.sorted_insertionSort _ (listing.filterMap (RgbSingle.scan_entry dcim_path))
  refine ⟨hmem, fun _ => rfl, ?_, hsorted, ?_⟩
  · intro dcim_path listing hall
    have : listing.filterMap (RgbSingle.scan_entry dcim_path) = [] := by
      rw [List.filterMap_eq_nil_iff]
      exact hall
    simp [RgbSingle.scan_dcim_folders, this]
  · intro dcim_path dcim
    cases dcim with
    | none => simp [RgbSingle.scan_dcim_folders]
    | some listing =>
      have hs := hsorted dcim_path (some listing)
      rw [List.pairwise_iff_forall_sublist] at hs ⊢
      intro x y hsub
      have hx : x ∈ RgbSingle.scan_dcim_folders dcim_path (some listing) :=
        hsub.subset (by simp)
      have hy : y ∈ RgbSingle.scan_dcim_folders dcim_path (some listing) :=
        hsub.subset (by simp)
      obtain ⟨hxp, -, -⟩ := hmem dcim_path listing x hx
      obtain ⟨hyp, -, -⟩ := hmem dcim_path listing y hy
      obtain ⟨a, b, c, hxd, ha, hb, hc⟩ := routeNumberOfFolder_digits hxp
      obtain ⟨d, e, f, hyd, hd, he, hf⟩ := routeNumberOfFolder_digits hyp
      have hstr := hs hsub
      rw [strLe, hxd, hyd, lexLe_digits3 ha hb hc hd he hf] at hstr
      simpa [routeVal, hxd, hyd] using hstr

/-- C8 witness listing: one matching folder with one suffix-D image, one
matching folder with no images, one non-matching folder. -/
def c8listing : List DirEntry :=
  [⟨"DJI_202401010800_002_x", true, ["img_2_D.JPG"]⟩,
   ⟨"DJI_202401010800_001_x", true, ["img_1_D.JPG"]⟩,
   ⟨"misc_folder", true, ["img_3_D.JPG"]⟩,
   ⟨"DJI_202401010800_003_x", true, []⟩]

/-- C8 witness: the grammar-and-nonempty clause at a concrete catalog entry
and the empty-catalog clause at a listing with no qualifying entry. -/
theorem C8_scan_catalog_witness :
    (routeNumberOfFolder
        (RgbSingle.RouteFolder.mk "DJI_202401010800_001_x" "DCIM/DJI_202401010800_001_x"
          "001" 1 ["DCIM/DJI_202401010800_001_x/img_1_D.JPG"]).folder_name
      = some "001" ∧
      (RgbSingle.RouteFolder.mk "DJI_202401010800_001_x" "DCIM/DJI_202401010800_001_x"
          "001" 1 ["DCIM/DJI_202401010800_001_x/img_1_D.JPG"]).image_files ≠ [] ∧
      (RgbSingle.RouteFolder.mk "DJI_202401010800_001_x" "DCIM/DJI_202401010800_001_x"
          "001" 1 ["DCIM/DJI_202401010800_001_x/img_1_D.JPG"]).rgb_count = 1) ∧
    RgbSingle.scan_dcim_folders "DCIM" (some [⟨"misc_folder", true, ["a.JPG"]⟩]) = [] := by
  constructor
  · have happ := C8_scan_catalog.1 "DCIM" c8listing
      (RgbSingle.RouteFolder.mk "DJI_202401010800_001_x" "DCIM/DJI_202401010800_001_x"
        "001" 1 ["DCIM/DJI_202401010800_001_x/img_1_D.JPG"]) (by decide)
    exact ⟨happ.1, happ.2.1, happ.2.2⟩
  · exact C8_scan_catalog.2.2.1 "DCIM" [⟨"misc_folder", true, ["a.JPG"]⟩] (by decide)

/-- C9 counterexample listing: two distinct folders with different
timestamps embedding the same route identifier, each holding an image. -/
def c9listing : List DirEntry :=
  [⟨"DJI_202401010800_001_a", true, ["x_D.JPG"]⟩,
   ⟨"DJI_202401020900_001_b", true, ["y_D.JPG"]⟩]

/-- C9: the claim asserts route_number is unique within one scan result.
With two distinct matching folders embedding route 001 the catalog holds two
entries, both numbered 001, with different folder names. -/
theorem C9_counterexample :
    (RgbSingle.scan_dcim_folders "DCIM" (some c9listing)).map
        (fun rf => rf.route_number) = ["001", "001"] ∧
    (RgbSingle.scan_dcim_folders "DCIM" (some c9listing)).map
        (fun rf => rf.folder_name)
      = ["DJI_202401010800_001_a", "DJI_202401020900_001_b"] ∧
    ¬ (RgbSingle.scan_dcim_folders "DCIM" (some c9listing)).Pairwise
        (fun x y => x.route_number ≠ y.route_number) := by
  refine ⟨by decide, by decide, by decide⟩

/-- C9 (amended): the scan performs no deduplication by route number: the
catalog is exactly the sorted rearrangement of one record per qualifying
directory, so each qualifying folder record appears in the catalog, and
distinct folders embedding the same route identifier yield distinct entries
with equal route_number. -/
theorem C9_route_number_multiplicity :
    (∀ (dcim_path : String) (listing : List DirEntry),
        (RgbSingle.scan_dcim_folders dcim_path (some listing)).Perm
          (listing.filterMap (RgbSingle.scan_entry dcim_path))) ∧
    (∀ (dcim_path : String) (listing : List DirEntry) (e : DirEntry)
        (rf : RgbSingle.RouteFolder), e ∈ listing →
        RgbSingle.scan_entry dcim_path e = some rf →
        rf ∈ RgbSingle.scan_dcim_folders dcim_path (some listing)) := by
  constructor
  · intro dcim_path listing
    exact List.perm_insertionSort _ _
  · intro dcim_path listing e rf he hsome
    have : rf ∈ listing.filterMap (RgbSingle.scan_entry dcim_path) :=
      List.mem_filterMap.mpr ⟨e, he, hsome⟩
    exact (List.perm_insertionSort _ _).mem_iff.mpr this

/-- C9 witness: both amended clauses at the duplicate-route listing. -/
theorem C9_route_number_multiplicity_witness :
    (RgbSingle.scan_dcim_folders "DCIM" (some c9listing)).Perm
      (c9listing.filterMap (RgbSingle.scan_entry "DCIM")) ∧
    RgbSingle.RouteFolder.mk "DJI_202401010800_001_a" "DCIM/DJI_202401010800_001_a"
        "001" 1 ["DCIM/DJI_202401010800_001_a/x_D.JPG"]
      ∈ RgbSingle.scan_dcim_folders "DCIM" (some c9listing) :=
  ⟨C9_route_number_multiplicity.1 "DCIM" c9listing,
   C9_route_number_multiplicity.2 "DCIM" c9listing
     ⟨"DJI_202401010800_001_a", true, ["x_D.JPG"]⟩
     (RgbSingle.RouteFolder.mk "DJI_202401010800_001_a" "DCIM/DJI_202401010800_001_a"
        "001" 1 ["DCIM/DJI_202401010800_001_a/x_D.JPG"])
     (by decide) (by decide)⟩

/-- Module-level configuration globals of the three combined multi-route
scripts (None until configure_paths or configure_routes runs). -/
structure ComboConfig where
  dcim_base_path : Option String
  gcp_base_path : Option String
  output_base_path : Option String
  routes_to_combine : List String
deriving Repr, DecidableEq

/-- Optional keyword arguments of process_combined_routes. -/
structure ComboArgs where
  route_numbers : Option (List String)
  dcim_path : Option String
  gcp_path : Option String
  output_path : Option String
deriving Repr, DecidableEq

/-- Effective values after the None-substitution prologue of
process_combined_routes. -/
structure ComboResolved where
  route_numbers : List String
  dcim_path : Option String
  gcp_path : Option String
  output_path : Option String
deriving Repr, DecidableEq

/-- Prologue of process_combined_routes in rgb_ms_combined, lines 462 to
465: an omitted gcp_path is replaced by the output_path argument as bound at
that line, before the output_path substitution of the next line, not by the
configured gcp_base_path. -/
def resolve_args_rgb_ms_combined (cfg : ComboConfig) (args : ComboArgs) : ComboResolved :=
  { route_numbers :=
      match args.route_numbers with
      | none => cfg.routes_to_combine
      | some rs => rs
    dcim_path :=
      match args.dcim_path with
      | none => cfg.dcim_base_path
      | some v => some v
    gcp_path :=
      match args.gcp_path with
      | none => args.output_path
      | some v => some v
    output_path :=
      match args.output_path with
      | none => cfg.output_base_path
      | some v => some v }

/-- Prologue of process_combined_routes in rgb_combined (lines 324 to 327)
and ms_combined (lines 372 to 375), whose bodies are identical: an omitted
gcp_path falls back to the configured gcp_base_path. -/
def resolve_args_combined (cfg : ComboConfig) (args : ComboArgs) : ComboResolved :=
  { route_numbers :=
      match args.route_numbers with
      | none => cfg.routes_to_combine
      | some rs => rs
    dcim_path :=
      match args.dcim_path with
      | none => cfg.dcim_base_path
      | some v => some v
    gcp_path :=
      match args.gcp_path with
      | none => cfg.gcp_base_path
      | some v => some v
    output_path :=
      match args.output_path with
      | none => cfg.output_base_path
      | some v => some v }

/-- C1: when the gcp_path argument is omitted, the combined RGB+MS
multi-route entry point substitutes the output_path argument for it, while
the RGB-only and MS-only variants substitute the configured gcp_base_path;
a supplied gcp_path is taken as given in every variant. -/
theorem C1_gcp_path_defaulting :
    (∀ (cfg : ComboConfig) (args : ComboArgs), args.gcp_path = none →
        (resolve_args_rgb_ms_combined cfg args).gcp_path = args.output_path) ∧
    (∀ (cfg : ComboConfig) (args : ComboArgs), args.gcp_path = none →
        (resolve_args_combined cfg args).gcp_path = cfg.gcp_base_path) ∧
    (∀ (cfg : ComboConfig) (args : ComboArgs) (g : String), args.gcp_path = some g →
        (resolve_args_rgb_ms_combined cfg args).gcp_path = some g ∧
        (resolve_args_combined cfg args).gcp_path = some g) := by
  refine ⟨?_, ?_, ?_⟩
  · intro cfg args hnone
    simp [resolve_args_rgb_ms_combined, hnone]
  · intro cfg args hnone
    simp [resolve_args_combined, hnone]
  · intro cfg args g hsome
    constructor <;> simp [resolve_args_rgb_ms_combined, resolve_args_combined, hsome]

/-- C1 witness configuration: a configured GCP base distinct from the
output argument. -/
def c1cfg : ComboConfig := ⟨some "DCIM", some "GCP", some "OUTBASE", ["001", "002"]⟩

/-- C1 witness arguments: gcp_path omitted, output_path supplied. -/
def c1args : ComboArgs := ⟨none, none, none, some "OUT"⟩

/-- C1 witness: with the gcp_path argument omitted, the combined RGB+MS
variant resolves it to the output argument while the RGB-only and MS-only
variants resolve it to the configured GCP base, and the two differ. -/
theorem C1_gcp_path_defaulting_witness :
    (resolve_args_rgb_ms_combined c1cfg c1args).gcp_path = some "OUT" ∧
    (resolve_args_combined c1cfg c1args).gcp_path = some "GCP" ∧
    (resolve_args_rgb_ms_combined c1cfg c1args).gcp_path
      ≠ (resolve_args_combined c1cfg c1args).gcp_path := by
  refine ⟨?_, ?_, ?_⟩
  · rw [C1_gcp_path_defaulting.1 c1cfg c1args rfl]
    rfl
  · rw [C1_gcp_path_defaulting.2.1 c1cfg c1args rfl]
    rfl
  · rw [C1_gcp_path_defaulting.1 c1cfg c1args rfl,
      C1_gcp_path_defaulting.2.1 c1cfg c1args rfl]
    decide

theorem find_isSome_eq_any {α : Type} (p : α → Bool) (l : List α) :
    (l.find? p).isSome = l.any p := by
  induction l with
  | nil => rfl
  | cons x xs ih => by_cases hp : p x <;> simp [List.find?_cons, hp, ih]

theorem length_filterMap_eq_countP {α β : Type} (f : α → Option β) (l : List α) :
    (l.filterMap f).length = l.countP (fun a => (f a).isSome) := by
  induction l with
  | nil => rfl
  | cons x xs ih => cases hf : f x <;> simp [hf, ih, List.countP_cons]

/-- find_routes_by_numbers, the common body of the three multi-route
variants (rgb_combined lines 127 to 147, ms_combined lines 148 to 169,
rgb_ms_combined lines 171 to 191), abstracted over the per-variant record
type through the route-number projection: an empty catalog returns the empty
list; otherwise each requested number contributes the first catalog entry
carrying it, and when fewer than two requested numbers resolve the empty
list is returned. -/
def find_routes_by_numbers {α : Type} (key : α → String)
    (route_numbers : List String) (all_routes : List α) : List α :=
  if all_routes.isEmpty then []
  else
    let found_routes := route_numbers.filterMap
      (fun num => all_routes.find? (fun r => key r == num))
    if found_routes.length < 2 then [] else found_routes

namespace ConfigTool

/-- Input state read by validate_inputs of config_tool_generic: the four
path fields, the selected routes, and the route mode radio value. -/
structure GuiState where
  script_base_path : String
  dcim_path : String
  gcp_path : String
  output_path : String
  selected_routes : List String
  route_mode : String
deriving Repr, DecidableEq

/-- validate_inputs of config_tool_generic, lines 394 to 421, with the
message boxes dropped: False as soon as a required path is missing, the
route selection is empty, or Multiple mode has fewer than two selected
routes. -/
def validate_inputs (s : GuiState) : Bool :=
  if s.script_base_path.isEmpty then false
  else if s.dcim_path.isEmpty then false
  else if s.gcp_path.isEmpty then false
  else if s.output_path.isEmpty then false
  else if s.selected_routes.isEmpty then false
  else if s.route_mode == "Multiple" && s.selected_routes.length < 2 then false
  else true

end ConfigTool

/-- C10: every multi-route combination path enforces a minimum of two
routes: find_routes_by_numbers returns the empty list whenever fewer than
two of the requested route numbers resolve against the catalog, and the GUI
validation rejects Multiple route mode with fewer than two selected
routes. -/
theorem C10_minimum_two_routes :
    (∀ {α : Type} (key : α → String) (route_numbers : List String)
        (all_routes : List α),
        route_numbers.countP (fun num => all_routes.any (fun r => key r == num)) < 2 →
        find_routes_by_numbers key route_numbers all_routes = []) ∧
    (∀ s : ConfigTool.GuiState, s.route_mode = "Multiple" →
        s.selected_routes.length < 2 → ConfigTool.validate_inputs s = false) := by
  constructor
  · intro α key route_numbers all_routes hlt
    unfold find_routes_by_numbers
    by_cases hemp : all_routes.isEmpty
    · simp [hemp]
    · have hlen : (route_numbers.filterMap
          (fun num => all_routes.find? (fun r => key r == num))).length
          = route_numbers.countP (fun num => all_routes.any (fun r => key r == num)) := by
        rw [length_filterMap_eq_countP]
        congr 1
        funext num
        rw [find_isSome_eq_any]
      simp [hemp, hlen, hlt]
  · intro s hmode hlen
    unfold ConfigTool.validate_inputs
    split_ifs with h1 h2 h3 h4 h5 h6 <;> try rfl
    exact absurd (by simp [hmode, hlen]) h6

/-- C10 witness: one requested route out of two resolves against a
single-entry catalog, so the lookup returns the empty list; and a Multiple
mode state with one selected route fails validation. -/
theorem C10_minimum_two_routes_witness :
    find_routes_by_numbers (fun r => r) ["001", "002"] ["001"] = [] ∧
    ConfigTool.validate_inputs ⟨"S", "D", "G", "O", ["001"], "Multiple"⟩ = false :=
  ⟨C10_minimum_two_routes.1 (fun r => r) ["001", "002"] ["001"] (by decide),
   C10_minimum_two_routes.2 ⟨"S", "D", "G", "O", ["001"], "Multiple"⟩ rfl (by decide)⟩
